import Mathlib

/-!
Verification development for the cube-DCA repository: a shallow embedding of
the TWAP strategy tick, the market tick-size rounding, the trade store queries,
the trade lifecycle API endpoints, the trade scheduler bookkeeping, and the
reconciliation loop, together with theorems settling the specification's
claims about them.

Numeric convention: Python `float` / `decimal.Decimal` values (prices,
quantities, tick sizes, seconds) are embedded as exact rationals (`ℚ`).
`Decimal` division followed by `quantize(Decimal('1'), rounding=ROUND_DOWN)`
is embedded as exact rational division followed by truncation toward zero,
matching the exact-decimal semantics the code relies on for the magnitudes it
handles.
-/

namespace CubeDca

/-- Order status enumeration, from `src/cube/cube_types.py` (`OrderStatus`):
OPEN, FILLED, PARTIALLY_FILLED, CANCELLED, REJECTED. `osPartFilled` embeds
`PARTIALLY_FILLED`. -/
inductive OrderStatus where
  | osOpen
  | osFilled
  | osPartFilled
  | osCancelled
  | osRejected
deriving DecidableEq, Repr

/-- The derived liveness predicate `OrderStatus.is_live` from
`src/cube/cube_types.py`: true for OPEN and PARTIALLY_FILLED. -/
def OrderStatus.is_live (s : OrderStatus) : Bool :=
  s = OrderStatus.osOpen ∨ s = OrderStatus.osPartFilled

/-- Trade lifecycle states, from `src/db/models.py` (`UserTradeStatus`). -/
inductive UserTradeStatus where
  | pending
  | active
  | paused
  | stopped
  | completed
deriving DecidableEq, Repr

/-- Market (instrument) rule: the fields of `Market` from
`src/cube/_cube_types.py` that the rounding logic reads. Tick sizes are
exact decimals, embedded as rationals. -/
structure Market where
  symbol : String
  price_tick_size : ℚ
  quantity_tick_size : ℚ
deriving DecidableEq, Repr

/-- Truncation toward zero of a rational to an integer: the embedding of
`Decimal.quantize(Decimal('1'), rounding=ROUND_DOWN)`, which rounds toward
zero (floor for non-negative values, ceiling for negative ones). -/
def quantizeRoundDown (q : ℚ) : ℤ :=
  if 0 ≤ q then ⌊q⌋ else ⌈q⌉

/-- Embedding of `MarketManager.round_price` from
`src/services/market_manager.py`: divide by the price tick size, truncate
toward zero, multiply back. -/
def round_price (market : Market) (price : ℚ) : ℚ :=
  quantizeRoundDown (price / market.price_tick_size) * market.price_tick_size

/-- Embedding of `MarketManager.round_quantity` from
`src/services/market_manager.py`: divide by the quantity tick size, truncate
toward zero, multiply back. -/
def round_quantity (market : Market) (quantity : ℚ) : ℚ :=
  quantizeRoundDown (quantity / market.quantity_tick_size) * market.quantity_tick_size

/-- Embedding of `MarketManager.validate_order` from
`src/services/market_manager.py`: round both price and quantity. -/
def validate_order (market : Market) (price quantity : ℚ) : ℚ × ℚ :=
  (round_price market price, round_quantity market quantity)

lemma quantizeRoundDown_nonneg_eq_floor {q : ℚ} (h : 0 ≤ q) :
    quantizeRoundDown q = ⌊q⌋ := by
  simp [quantizeRoundDown, h]

lemma quantizeRoundDown_mul_le {v t : ℚ} (ht : 0 < t) (hv : 0 ≤ v) :
    quantizeRoundDown (v / t) * t ≤ v := by
  have hq : (0 : ℚ) ≤ v / t := div_nonneg hv ht.le
  rw [quantizeRoundDown_nonneg_eq_floor hq]
  have hfl : (⌊v / t⌋ : ℚ) ≤ v / t := Int.floor_le _
  calc (⌊v / t⌋ : ℚ) * t ≤ (v / t) * t := by
        exact mul_le_mul_of_nonneg_right hfl ht.le
    _ = v := div_mul_cancel₀ v ht.ne'

lemma quantizeRoundDown_intCast (k : ℤ) : quantizeRoundDown (k : ℚ) = k := by
  rcases le_or_lt 0 (k : ℚ) with h | h
  · simp [quantizeRoundDown, h]
  · simp [quantizeRoundDown, not_le.mpr h]

lemma roundTo_idem (t v : ℚ) :
    quantizeRoundDown (quantizeRoundDown (v / t) * t / t) * t =
      quantizeRoundDown (v / t) * t := by
  rcases eq_or_ne t 0 with ht | ht
  · simp [ht]
  · rw [mul_div_cancel_right₀ _ ht, quantizeRoundDown_intCast]

/-- Local order row as created by a TWAP tick, from
`src/cube_dca/strategies/twap.py` (`Order(...)` construction inside
`process_interval`): the fields the claims read. The status is the literal
string "pending" the code stores. -/
structure OrderRow where
  user_trade_id : String
  symbol : String
  side : String
  price : ℚ
  quantity : ℚ
  status : String
  created_at : ℚ
deriving DecidableEq, Repr

/-- Per-trade configuration fixed at `TwapStrategy.__init__`
(`src/cube_dca/strategies/twap.py`): the market rule, the pre-validated limit
price, the slice frequency in seconds, and the end time
`start_time + total_duration` (seconds on an absolute clock). -/
structure TwapConfig where
  market : Market
  limit_price : ℚ
  frequency : ℚ
  end_time : ℚ
  trade_id : String
  symbol : String
  side : String
deriving DecidableEq, Repr

/-- Mutable per-trade strategy state threaded across ticks: the trade status,
`remaining_quantity`, and `last_order_time`, from
`src/cube_dca/strategies/twap.py`. -/
structure TwapState where
  status : UserTradeStatus
  remaining_quantity : ℚ
  last_order_time : Option ℚ
deriving DecidableEq, Repr

/-- Per-tick environment: the wall-clock time of the tick, the status strings
of the exchange's latest orders (the cancel loop only reads `order.status`),
and whether `cube_client.place_order` succeeds or raises on this tick. -/
structure TickEnv where
  current_time : ℚ
  latest_order_statuses : List String
  place_order_ok : Bool
deriving DecidableEq, Repr

/-- Result of one `process_interval` call: the successor state, the returned
boolean (`keep_running`: True = continue, False = stop), and the externally
visible effects: how many live exchange orders the cancel loop cancelled,
whether `cancel_market_orders` ran (`pause`), the order row passed to
`db_client.add_order`, the order passed to `cube_client.place_order`, whether
that submission succeeded, and whether `db_client.update_user_trade` ran. -/
structure TickOutcome where
  state : TwapState
  keep_running : Bool
  cancelled_live_orders : Nat
  cancelled_market_orders : Bool
  added_order : Option OrderRow
  submitted_order : Option OrderRow
  submit_succeeded : Bool
  persisted_trade : Bool
deriving DecidableEq, Repr

/-- The frequency gate at the top of the tick, from
`src/cube_dca/strategies/twap.py` line 76: trade when `last_order_time` is
None or at least `frequency` seconds have elapsed since it. -/
def tickDue (frequency current_time : ℚ) : Option ℚ → Bool
  | none => true
  | some t => decide (frequency ≤ current_time - t)

/-- The remaining-intervals computation of the tick, from
`src/cube_dca/strategies/twap.py` lines 87-88 (and identically
`src/strategies/twap.py` lines 63-65): `(end_time - now) / frequency`,
replaced by 1 only when that quotient is non-positive. -/
def remainingIntervalsCode (time_left frequency : ℚ) : ℚ :=
  let r := time_left / frequency
  if r ≤ 0 then 1 else r

/-- The specification's formula for the same quantity:
`max(1, (end_time - now) / frequency)`. Stated only to be compared with
`remainingIntervalsCode`. -/
def remainingIntervalsSpec (time_left frequency : ℚ) : ℚ :=
  max 1 (time_left / frequency)

/-- Embedding of `TwapStrategy.process_interval` from
`src/cube_dca/strategies/twap.py`. Control flow, in source order:
if the trade is not ACTIVE, `pause()` (cancel market orders) and return False;
if the frequency gate passes, cancel live latest orders, compute
`remaining_intervals` and `interval_quantity`, validate/round through the
market manager; on a zero rounded quantity `stop()` (pause, set COMPLETED,
persist) and return False; otherwise add a pending order row, submit it, and
on success record `last_order_time` and decrement `remaining_quantity` (a
submission failure is logged and leaves the state unchanged); return True. -/
def process_interval (cfg : TwapConfig) (env : TickEnv) (st : TwapState) :
    TickOutcome :=
  if st.status ≠ UserTradeStatus.active then
    { state := st, keep_running := false, cancelled_live_orders := 0,
      cancelled_market_orders := true, added_order := none,
      submitted_order := none, submit_succeeded := false,
      persisted_trade := false }
  else if tickDue cfg.frequency env.current_time st.last_order_time then
    let cancelled := (env.latest_order_statuses.filter
      (fun s => s == "open" || s == "partially_filled")).length
    let remaining_intervals :=
      remainingIntervalsCode (cfg.end_time - env.current_time) cfg.frequency
    let interval_quantity_raw := st.remaining_quantity / remaining_intervals
    let rounded := validate_order cfg.market cfg.limit_price interval_quantity_raw
    let limit_price := rounded.1
    let interval_quantity := rounded.2
    if interval_quantity = 0 then
      { state := { st with status := UserTradeStatus.completed },
        keep_running := false, cancelled_live_orders := cancelled,
        cancelled_market_orders := true, added_order := none,
        submitted_order := none, submit_succeeded := false,
        persisted_trade := true }
    else
      let order : OrderRow :=
        { user_trade_id := cfg.trade_id, symbol := cfg.symbol,
          side := cfg.side, price := limit_price,
          quantity := interval_quantity, status := "pending",
          created_at := env.current_time }
      if env.place_order_ok then
        { state := { st with
            last_order_time := some env.current_time,
            remaining_quantity := st.remaining_quantity - interval_quantity },
          keep_running := true, cancelled_live_orders := cancelled,
          cancelled_market_orders := false, added_order := some order,
          submitted_order := some order, submit_succeeded := true,
          persisted_trade := false }
      else
        { state := st, keep_running := true,
          cancelled_live_orders := cancelled,
          cancelled_market_orders := false, added_order := some order,
          submitted_order := some order, submit_succeeded := false,
          persisted_trade := false }
  else
    { state := st, keep_running := true, cancelled_live_orders := 0,
      cancelled_market_orders := false, added_order := none,
      submitted_order := none, submit_succeeded := false,
      persisted_trade := false }

/-- C3: for every market rule with positive tick sizes and non-negative
price and quantity inputs, `round_price` and `round_quantity` return exact
integer multiples of the respective tick sizes and never exceed their
inputs (round-down, truncation toward zero). -/
theorem round_price_quantity_round_down (market : Market) (price quantity : ℚ)
    (hp : 0 < market.price_tick_size) (hq : 0 < market.quantity_tick_size)
    (hprice : 0 ≤ price) (hquantity : 0 ≤ quantity) :
    (∃ k : ℤ, round_price market price = k * market.price_tick_size) ∧
    round_price market price ≤ price ∧
    (∃ k : ℤ, round_quantity market quantity = k * market.quantity_tick_size) ∧
    round_quantity market quantity ≤ quantity := by
  refine ⟨⟨quantizeRoundDown (price / market.price_tick_size), rfl⟩, ?_,
    ⟨quantizeRoundDown (quantity / market.quantity_tick_size), rfl⟩, ?_⟩
  · exact quantizeRoundDown_mul_le hp hprice
  · exact quantizeRoundDown_mul_le hq hquantity

/-- Concrete instantiation of the round-down theorem: tick sizes 0.01 and
0.1 on price 2.345 and quantity 1.25. -/
theorem round_price_quantity_round_down_witness :
    (∃ k : ℤ, round_price ⟨"BTCUSDC", 1/100, 1/10⟩ (469/200) = k * (1/100 : ℚ)) ∧
    round_price ⟨"BTCUSDC", 1/100, 1/10⟩ (469/200) ≤ (469/200 : ℚ) ∧
    (∃ k : ℤ, round_quantity ⟨"BTCUSDC", 1/100, 1/10⟩ (5/4) = k * (1/10 : ℚ)) ∧
    round_quantity ⟨"BTCUSDC", 1/100, 1/10⟩ (5/4) ≤ (5/4 : ℚ) :=
  round_price_quantity_round_down ⟨"BTCUSDC", 1/100, 1/10⟩ (469/200) (5/4)
    (by norm_num) (by norm_num) (by norm_num) (by norm_num)

/-- Stored order row as seen by the store queries (`src/db/db.py`): the
fields the live-order query reads. -/
structure StoredOrder where
  client_order_id : Nat
  status : OrderStatus
deriving DecidableEq, Repr

/-- Embedding of `Database.get_live_orders` from `src/db/db.py`. The filter
argument in the source is the Python expression
`Order.status == OrderStatus.OPEN or Order.status == OrderStatus.PARTIALLY_FILLED`.
Both operands are SQLAlchemy column comparisons; `bool()` of such an
equality comparison against a distinct object is `False`, so the Python
`or` evaluates to its right operand and the emitted SQL filters on
`status = PARTIALLY_FILLED` alone. -/
def get_live_orders (orders : List StoredOrder) : List StoredOrder :=
  orders.filter (fun o => o.status == OrderStatus.osPartFilled)

/-- The specification's description of `getLiveOrders`: the orders whose
status is open or partially filled (the `is_live` predicate). Stated only
to be compared with `get_live_orders`. -/
def get_live_orders_spec (orders : List StoredOrder) : List StoredOrder :=
  orders.filter (fun o => o.status.is_live)

/-- Trade row as seen by the lifecycle API endpoints
(`src/api/trade_api.py`): identifier and status. -/
structure ApiTrade where
  id : String
  status : UserTradeStatus
deriving DecidableEq, Repr

/-- Response of a lifecycle endpoint: success carries the trade id and the
resulting status; failure carries the HTTP status code (404 not found,
400 bad request). -/
inductive ApiResponse where
  | ok (trade_id : String) (resulting_status : UserTradeStatus)
  | httpError (code : Nat)
deriving DecidableEq, Repr

/-- Embedding of `pause_existing_trade` from `src/api/trade_api.py`:
look the trade up by id (404 if absent), set its status to PAUSED
unconditionally, commit, and only then raise 400 if the status is not
PAUSED; otherwise report success. The guard follows the unconditional
assignment, mirroring the source order. -/
def pause_existing_trade (store : List ApiTrade) (trade_id : String) :
    List ApiTrade × ApiResponse :=
  match store.find? (fun t => t.id == trade_id) with
  | none => (store, ApiResponse.httpError 404)
  | some trade =>
    let paused : ApiTrade := { trade with status := UserTradeStatus.paused }
    let committed := store.map (fun t => if t.id == trade_id then paused else t)
    if paused.status ≠ UserTradeStatus.paused then
      (committed, ApiResponse.httpError 400)
    else
      (committed, ApiResponse.ok paused.id paused.status)

/-- Key-membership test on the scheduler's bookkeeping map, the embedding
of the Python `trade.id not in self.active_trades` check (negated) from
`src/cube_dca/core/trade_manager.py`. The dict `active_trades` is embedded
as an association list in insertion order; `Nat` stands in for the opaque
future handle returned by `executor.submit`. -/
def hasKey (active : List (String × Nat)) (trade_id : String) : Bool :=
  active.any (fun p => p.fst == trade_id)

/-- Embedding of `TradeManager.start_trade` from
`src/cube_dca/core/trade_manager.py` (the body runs under `self.lock`, so
calls are serialized and embedded as a sequential state update): if a slot
is already registered for the trade's identifier do nothing, otherwise
submit the run loop and register the new slot under the identifier. -/
def start_trade (active : List (String × Nat)) (trade_id : String)
    (slot : Nat) : List (String × Nat) :=
  if hasKey active trade_id then active else active ++ [(trade_id, slot)]

/-- Live local order row as read by the reconciliation loop
(`src/main.py`): the client order identifier used to index the exchange
response. -/
structure LocalOrder where
  client_order_id : Nat
deriving DecidableEq, Repr

/-- Exchange-reported order as returned by `get_latest_orders` and keyed
by client order identifier in the reconciliation loop. -/
structure ExchangeOrder where
  client_order_id : Nat
  status : OrderStatus
deriving DecidableEq, Repr

/-- Result of one reconciliation pass: the exchange orders written through
`db.update_order` before the pass ended, and the client order identifier
whose dictionary lookup raised `KeyError`, if the pass aborted. -/
structure ReconcileResult where
  applied : List ExchangeOrder
  key_error : Option Nat
deriving DecidableEq, Repr

/-- Embedding of the merge loop of `main` from `src/main.py` lines 61-68:
for each live local order in turn, index the dictionary built from the
exchange's latest orders by the order's client order identifier; a missing
key raises `KeyError`, aborting the pass with the earlier updates already
written; a present key writes the exchange order via `db.update_order`. -/
def reconcile_orders (cube_orders : List (Nat × ExchangeOrder)) :
    List LocalOrder → ReconcileResult
  | [] => { applied := [], key_error := none }
  | o :: rest =>
    match cube_orders.lookup o.client_order_id with
    | none => { applied := [], key_error := some o.client_order_id }
    | some co =>
      let r := reconcile_orders cube_orders rest
      { applied := co :: r.applied, key_error := r.key_error }

/-- C1: the claim states that every tick sizes its slice with
`remaining_intervals = max(1, (end_time - now) / frequency)`, never less
than 1, so the slice never exceeds `remaining_quantity`. The code instead
replaces the quotient by 1 only when it is non-positive: with 30 seconds
left and a 60-second frequency the divisor is 1/2 (not `max(1, 1/2) = 1`),
so the raw slice is twice the remaining quantity. -/
theorem twap_remaining_intervals_clamp_code_eval :
    remainingIntervalsCode 30 60 = 1/2 ∧
    remainingIntervalsSpec 30 60 = 1 ∧
    remainingIntervalsCode 30 60 ≠ remainingIntervalsSpec 30 60 ∧
    remainingIntervalsCode 30 60 < 1 ∧
    (1 : ℚ) / remainingIntervalsCode 30 60 = 2 := by
  norm_num [remainingIntervalsCode, remainingIntervalsSpec]

/-- C2: whenever the trade is ACTIVE, the frequency gate passes, and the
tick-size-rounded interval quantity is zero, `process_interval` cancels
market orders, sets the trade status to COMPLETED, persists the trade,
reports stop (returns False), and neither stores nor submits an order on
that tick; `remaining_quantity` is left unchanged. -/
theorem process_interval_zero_quantity_completes
    (cfg : TwapConfig) (env : TickEnv) (st : TwapState)
    (hact : st.status = UserTradeStatus.active)
    (hdue : tickDue cfg.frequency env.current_time st.last_order_time = true)
    (hzero : round_quantity cfg.market
      (st.remaining_quantity /
        remainingIntervalsCode (cfg.end_time - env.current_time) cfg.frequency)
      = 0) :
    (process_interval cfg env st).cancelled_market_orders = true ∧
    (process_interval cfg env st).state.status = UserTradeStatus.completed ∧
    (process_interval cfg env st).persisted_trade = true ∧
    (process_interval cfg env st).keep_running = false ∧
    (process_interval cfg env st).added_order = none ∧
    (process_interval cfg env st).submitted_order = none ∧
    (process_interval cfg env st).state.remaining_quantity =
      st.remaining_quantity := by
  simp [process_interval, hact, hdue, validate_order, hzero]

/-- Concrete instantiation of the zero-quantity completion theorem: a trade
with 0.05 remaining, two intervals left, and quantity tick size 0.1 rounds
its 0.025 slice to zero and completes. -/
theorem process_interval_zero_quantity_completes_witness :
    (process_interval ⟨⟨"BTCUSDC", 1/100, 1/10⟩, 50000, 60, 120, "t1", "BTCUSDC", "buy"⟩
        ⟨0, [], true⟩ ⟨UserTradeStatus.active, 1/20, none⟩).cancelled_market_orders = true ∧
    (process_interval ⟨⟨"BTCUSDC", 1/100, 1/10⟩, 50000, 60, 120, "t1", "BTCUSDC", "buy"⟩
        ⟨0, [], true⟩ ⟨UserTradeStatus.active, 1/20, none⟩).state.status = UserTradeStatus.completed ∧
    (process_interval ⟨⟨"BTCUSDC", 1/100, 1/10⟩, 50000, 60, 120, "t1", "BTCUSDC", "buy"⟩
        ⟨0, [], true⟩ ⟨UserTradeStatus.active, 1/20, none⟩).persisted_trade = true ∧
    (process_interval ⟨⟨"BTCUSDC", 1/100, 1/10⟩, 50000, 60, 120, "t1", "BTCUSDC", "buy"⟩
        ⟨0, [], true⟩ ⟨UserTradeStatus.active, 1/20, none⟩).keep_running = false ∧
    (process_interval ⟨⟨"BTCUSDC", 1/100, 1/10⟩, 50000, 60, 120, "t1", "BTCUSDC", "buy"⟩
        ⟨0, [], true⟩ ⟨UserTradeStatus.active, 1/20, none⟩).added_order = none ∧
    (process_interval ⟨⟨"BTCUSDC", 1/100, 1/10⟩, 50000, 60, 120, "t1", "BTCUSDC", "buy"⟩
        ⟨0, [], true⟩ ⟨UserTradeStatus.active, 1/20, none⟩).submitted_order = none ∧
    (process_interval ⟨⟨"BTCUSDC", 1/100, 1/10⟩, 50000, 60, 120, "t1", "BTCUSDC", "buy"⟩
        ⟨0, [], true⟩ ⟨UserTradeStatus.active, 1/20, none⟩).state.remaining_quantity = 1/20 :=
  process_interval_zero_quantity_completes _ _ _ rfl rfl
    (by norm_num [round_quantity, quantizeRoundDown, remainingIntervalsCode])

/-- C5: the claim states `remaining_quantity` never becomes negative. One
tick from a legitimate state refutes it: with `remaining_quantity = 1`,
30 seconds left, and a 60-second frequency, the divisor is 1/2, the tick
submits a slice of quantity 2, and `remaining_quantity` becomes -1. -/
theorem twap_remaining_quantity_negative_code_eval :
    (process_interval ⟨⟨"BTCUSDC", 1/100, 1/10⟩, 50000, 60, 30, "t1", "BTCUSDC", "buy"⟩
        ⟨0, [], true⟩ ⟨UserTradeStatus.active, 1, none⟩).state.remaining_quantity = -1 ∧
    (process_interval ⟨⟨"BTCUSDC", 1/100, 1/10⟩, 50000, 60, 30, "t1", "BTCUSDC", "buy"⟩
        ⟨0, [], true⟩ ⟨UserTradeStatus.active, 1, none⟩).state.remaining_quantity < 0 ∧
    ((process_interval ⟨⟨"BTCUSDC", 1/100, 1/10⟩, 50000, 60, 30, "t1", "BTCUSDC", "buy"⟩
        ⟨0, [], true⟩ ⟨UserTradeStatus.active, 1, none⟩).submitted_order.map
      OrderRow.quantity) = some 2 := by
  norm_num [process_interval, tickDue, remainingIntervalsCode, validate_order,
    round_price, round_quantity, quantizeRoundDown]

/-- C9: when the trade is ACTIVE, the frequency gate passes, the rounded
interval quantity is nonzero, and `place_order` fails, the tick reports
continue (returns True), leaves the whole strategy state unchanged (in
particular `remaining_quantity` is not decremented and `last_order_time`
is not updated), and the locally persisted order row exists with status
"pending". -/
theorem process_interval_submit_failure_continues
    (cfg : TwapConfig) (env : TickEnv) (st : TwapState)
    (hact : st.status = UserTradeStatus.active)
    (hdue : tickDue cfg.frequency env.current_time st.last_order_time = true)
    (hnz : round_quantity cfg.market
      (st.remaining_quantity /
        remainingIntervalsCode (cfg.end_time - env.current_time) cfg.frequency)
      ≠ 0)
    (hfail : env.place_order_ok = false) :
    (process_interval cfg env st).keep_running = true ∧
    (process_interval cfg env st).state = st ∧
    ((process_interval cfg env st).added_order.map OrderRow.status) =
      some "pending" ∧
    (process_interval cfg env st).submit_succeeded = false := by
  simp [process_interval, hact, hdue, validate_order, hnz, hfail]

/-- Concrete instantiation of the submission-failure theorem: a failing
gateway call with 1.0 remaining and two intervals left leaves the state
unchanged and the 0.5-quantity order row pending. -/
theorem process_interval_submit_failure_continues_witness :
    (process_interval ⟨⟨"BTCUSDC", 1/100, 1/10⟩, 50000, 60, 120, "t1", "BTCUSDC", "buy"⟩
        ⟨0, [], false⟩ ⟨UserTradeStatus.active, 1, none⟩).keep_running = true ∧
    (process_interval ⟨⟨"BTCUSDC", 1/100, 1/10⟩, 50000, 60, 120, "t1", "BTCUSDC", "buy"⟩
        ⟨0, [], false⟩ ⟨UserTradeStatus.active, 1, none⟩).state =
      (⟨UserTradeStatus.active, 1, none⟩ : TwapState) ∧
    ((process_interval ⟨⟨"BTCUSDC", 1/100, 1/10⟩, 50000, 60, 120, "t1", "BTCUSDC", "buy"⟩
        ⟨0, [], false⟩ ⟨UserTradeStatus.active, 1, none⟩).added_order.map
      OrderRow.status) = some "pending" ∧
    (process_interval ⟨⟨"BTCUSDC", 1/100, 1/10⟩, 50000, 60, 120, "t1", "BTCUSDC", "buy"⟩
        ⟨0, [], false⟩ ⟨UserTradeStatus.active, 1, none⟩).submit_succeeded = false :=
  process_interval_submit_failure_continues _ _ _ rfl rfl
    (by norm_num [round_quantity, quantizeRoundDown, remainingIntervalsCode]) rfl

/-- C4: re-rounding an already-rounded price or quantity is a no-op:
`round_price` and `round_quantity` are idempotent for every market rule and
every input value. -/
theorem round_price_quantity_idempotent (market : Market) (price quantity : ℚ) :
    round_price market (round_price market price) = round_price market price ∧
    round_quantity market (round_quantity market quantity) =
      round_quantity market quantity := by
  constructor
  · exact roundTo_idem market.price_tick_size price
  · exact roundTo_idem market.quantity_tick_size quantity

/-- C6: the claim states `getLiveOrders` returns exactly the orders whose
status is open or partially filled. The code's filter reduces to
partially-filled alone, so a stored order with status open — live by the
code's own `is_live` predicate and by the spec's reading of the same
filter — is not returned, while a partially filled one is. -/
theorem get_live_orders_drops_open_code_eval :
    get_live_orders [⟨1, OrderStatus.osOpen⟩] = [] ∧
    OrderStatus.is_live OrderStatus.osOpen = true ∧
    get_live_orders_spec [⟨1, OrderStatus.osOpen⟩] = [⟨1, OrderStatus.osOpen⟩] ∧
    get_live_orders [⟨2, OrderStatus.osPartFilled⟩] =
      [⟨2, OrderStatus.osPartFilled⟩] := by
  decide

/-- C7: the claim states that pausing a trade whose status is not ACTIVE
fails with a client error and leaves the stored status unchanged. The
endpoint instead sets the status to PAUSED before its guard, so pausing a
COMPLETED trade commits the PAUSED status and reports success. -/
theorem pause_non_active_trade_code_eval :
    (pause_existing_trade [⟨"t1", UserTradeStatus.completed⟩] "t1").2 =
      ApiResponse.ok "t1" UserTradeStatus.paused ∧
    (pause_existing_trade [⟨"t1", UserTradeStatus.completed⟩] "t1").1 =
      [⟨"t1", UserTradeStatus.paused⟩] := by
  decide

/-- C8: `start_trade` is idempotent — when a slot is already registered
for the trade's identifier the call leaves the bookkeeping map unchanged —
and it preserves the invariant that the map holds at most one slot per
trade identifier (no duplicate keys). -/
theorem start_trade_idempotent (active : List (String × Nat))
    (trade_id : String) (slot : Nat) :
    (hasKey active trade_id = true →
      start_trade active trade_id slot = active) ∧
    ((active.map Prod.fst).Nodup →
      ((start_trade active trade_id slot).map Prod.fst).Nodup) := by
  constructor
  · intro h
    simp [start_trade, h]
  · intro hnd
    by_cases h : hasKey active trade_id
    · simp [start_trade, h, hnd]
    · have hmem : trade_id ∉ active.map Prod.fst := by
        intro hm
        rcases List.mem_map.mp hm with ⟨p, hp, hfst⟩
        apply h
        simp only [hasKey, List.any_eq_true]
        exact ⟨p, hp, by simp [hfst]⟩
      have hkeys : (List.map Prod.fst (active ++ [(trade_id, slot)])).Nodup := by
        rw [List.map_append, List.nodup_append]
        refine ⟨hnd, List.nodup_singleton _, ?_⟩
        intro a ha hb
        simp only [List.map_cons, List.map_nil, List.mem_singleton] at hb
        exact hmem (hb ▸ ha)
      simpa [start_trade, h] using hkeys

/-- Concrete instantiation of the `start_trade` theorem: re-admitting the
already-registered trade id leaves the map unchanged and keeps its keys
duplicate-free. -/
theorem start_trade_idempotent_witness :
    start_trade [("a", 1)] "a" 2 = [("a", 1)] ∧
    ((start_trade [("a", 1)] "a" 2).map Prod.fst).Nodup :=
  ⟨(start_trade_idempotent [("a", 1)] "a" 2).1 (by decide),
   (start_trade_idempotent [("a", 1)] "a" 2).2 (by decide)⟩

/-- C10: a reconciliation pass ends without a `KeyError` exactly when every
live local order's client order identifier is present in the dictionary
built from the exchange's latest orders; in that case every live order is
merged, and when some identifier is absent the pass aborts having merged
strictly fewer orders than it read. -/
theorem reconcile_orders_keyerror_aborts
    (cube_orders : List (Nat × ExchangeOrder)) (orders : List LocalOrder) :
    ((reconcile_orders cube_orders orders).key_error = none ↔
      ∀ o ∈ orders, (cube_orders.lookup o.client_order_id).isSome) ∧
    ((reconcile_orders cube_orders orders).key_error = none →
      (reconcile_orders cube_orders orders).applied.length = orders.length) ∧
    (∀ e, (reconcile_orders cube_orders orders).key_error = some e →
      (reconcile_orders cube_orders orders).applied.length < orders.length) := by
  induction orders with
  | nil => simp [reconcile_orders]
  | cons o rest ih =>
    obtain ⟨ih1, ih2, ih3⟩ := ih
    cases hl : cube_orders.lookup o.client_order_id with
    | none =>
      refine ⟨?_, ?_, ?_⟩
      · constructor
        · intro hnone
          simp only [reconcile_orders, hl] at hnone
          exact Option.noConfusion hnone
        · intro hall
          have hone := hall o (List.mem_cons_self o rest)
          rw [hl] at hone
          simp at hone
      · intro hnone
        simp only [reconcile_orders, hl] at hnone
        exact Option.noConfusion hnone
      · intro e _
        simp only [reconcile_orders, hl, List.length_cons, List.length_nil]
        omega
    | some co =>
      refine ⟨?_, ?_, ?_⟩
      · simp only [reconcile_orders, hl]
        constructor
        · intro hnone o' ho'
          rcases List.mem_cons.mp ho' with h1 | h1
          · rw [h1, hl]
            rfl
          · exact ih1.mp hnone o' h1
        · intro hall
          exact ih1.mpr (fun o' ho' => hall o' (List.mem_cons_of_mem _ ho'))
      · intro hnone
        simp only [reconcile_orders, hl] at hnone ⊢
        simp [ih2 hnone]
      · intro e he
        simp only [reconcile_orders, hl] at he ⊢
        have := ih3 e he
        simp only [List.length_cons]
        omega

/-- Concrete instantiation of the reconciliation theorem: with the single
live order's client id present in the exchange response, the pass merges
all (one) live orders. -/
theorem reconcile_orders_keyerror_aborts_witness :
    (reconcile_orders [(1, ⟨1, OrderStatus.osOpen⟩)] [⟨1⟩]).applied.length =
      ([⟨1⟩] : List LocalOrder).length :=
  (reconcile_orders_keyerror_aborts [(1, ⟨1, OrderStatus.osOpen⟩)] [⟨1⟩]).2.1
    (by decide)

end CubeDca
